import Mathlib

/-!
Verification of the any-potd photo-of-the-day downloader (src/any_potd.py)
against its natural-language specification.

The Python source is shallowly embedded: each function becomes a pure Lean
definition, the HTTP/file side effects become explicit data (event traces,
returned records), and JSON responses become structured records with
`Option` fields (a missing or JSON-null field is `none`).  Machine-level
concerns (sockets, real sleeping, the filesystem) are out of scope; what is
modelled is the decision logic of the source, line by line.
-/

/-! ## Python truthiness helpers

Python treats `None` and the empty string as falsy; all embedded
`if not x:` checks on optional strings go through `truthy`. -/

/-- Python truthiness of an optional string: `None` and `\x22\x22` are falsy. -/
def truthy : Option String → Bool
  | none => false
  | some s => !s.isEmpty

/-- Python `a or b` on two optional strings: yields `a` when `a` is truthy,
otherwise `b` (used for `data.get(..) or data.get(..)` chains). -/
def pyOr (a b : Option String) : Option String :=
  if truthy a then a else b

/-- Embeds `img_url = ...; if not img_url: raise`: keeps the string only when
it is truthy (present and non-empty). -/
def nonEmptyOpt : Option String → Option String
  | none => none
  | some s => if s = "" then none else some s

theorem nonEmptyOpt_ne (o : Option String) (s : String)
    (h : nonEmptyOpt o = some s) : s ≠ "" := by
  cases o with
  | none => simp [nonEmptyOpt] at h
  | some t =>
    simp only [nonEmptyOpt] at h
    by_cases ht : t = ""
    · simp [ht] at h
    · simp [ht] at h
      subst h
      exact ht

/-! ## retry_request (src/any_potd.py lines 33-62)

The loop `for attempt in range(max_retries)` is embedded with an explicit
fuel argument `remaining` (the number of loop iterations still to run, so
`remaining + attempt = max_retries` at every call from `retry_request`).
Each iteration records a `get` event for the HTTP GET it performs and a
`sleep` event for each `time.sleep(2 ** attempt)` backoff.  The outcome of
each GET is supplied by an oracle `attempts : Nat → Attempt`, standing for
the network. -/

/-- Outcome of one `requests.get` + `raise_for_status` call: either a
response value or a raised `requests.RequestException`. -/
inductive Attempt (ρ ε : Type) where
  | ok (r : ρ)
  | err (e : ε)
deriving DecidableEq

/-- Observable side effects of `retry_request`: one `get` per HTTP attempt
(in order), one `sleep` per backoff with its duration in seconds. -/
inductive Event where
  | get (attempt : Nat)
  | sleep (secs : Nat)
deriving DecidableEq

/-- Result of `retry_request`: a returned response, a re-raised exception
from a failed attempt, or the fall-through
`raise requests.RequestException(\x22Max retries exceeded\x22)` after the loop.
Each constructor carries the event trace produced up to that point. -/
inductive RetryResult (ρ ε : Type) where
  | success (r : ρ) (trace : List Event)
  | raised (e : ε) (trace : List Event)
  | maxExceeded (msg : String) (trace : List Event)
deriving DecidableEq

/-- The loop body of `retry_request` (source lines 50-60). -/
def retryGo (attempts : Nat → Attempt ρ ε) (max_retries : Nat) :
    Nat → Nat → List Event → RetryResult ρ ε
  | 0, _, trace => .maxExceeded "Max retries exceeded" trace
  | remaining + 1, attempt, trace =>
    match attempts attempt with
    | .ok r => .success r (trace ++ [.get attempt])
    | .err e =>
      if attempt = max_retries - 1 then
        .raised e (trace ++ [.get attempt])
      else
        retryGo attempts max_retries remaining (attempt + 1)
          (trace ++ [.get attempt, .sleep (2 ^ attempt)])

/-- `retry_request(url, max_retries, ...)` (source lines 33-62), with the
network abstracted by `attempts`. -/
def retry_request (attempts : Nat → Attempt ρ ε) (max_retries : Nat) :
    RetryResult ρ ε :=
  retryGo attempts max_retries max_retries 0 []

/-- Expected trace of a run whose attempts `k, k+1, ...` fail with backoff
until a terminal GET at attempt `k + n`:
`[get k, sleep 2^k, get (k+1), sleep 2^(k+1), ..., get (k+n)]`. -/
def trSeg : Nat → Nat → List Event
  | k, 0 => [.get k]
  | k, n + 1 => .get k :: .sleep (2 ^ k) :: trSeg (k + 1) n

/-- The backoff sleep durations of a trace, in order. -/
def sleepsOf : List Event → List Nat
  | [] => []
  | .sleep s :: t => s :: sleepsOf t
  | .get _ :: t => sleepsOf t

/-- Whether a retry run ended in the fall-through raise after the loop. -/
def isMaxExceeded : RetryResult ρ ε → Bool
  | .maxExceeded _ _ => true
  | _ => false

theorem sleepsOf_trSeg :
    ∀ (n k : Nat), sleepsOf (trSeg k n) = (List.range n).map (fun j => 2 ^ (k + j)) := by
  intro n
  induction n with
  | zero => intro k; simp [trSeg, sleepsOf]
  | succ m ih =>
    intro k
    rw [trSeg, List.range_succ_eq_map]
    simp only [sleepsOf, ih (k + 1), List.map_cons, List.map_map]
    congr 1
    apply List.map_congr_left
    intro j _
    simp only [Function.comp_apply]
    congr 1
    omega

theorem retryGo_success (attempts : Nat → Attempt ρ ε) (M : Nat) (e : Nat → ε) (r : ρ) :
    ∀ (n k : Nat) (tr : List Event),
      (∀ j, j < n → attempts (k + j) = .err (e (k + j))) →
      attempts (k + n) = .ok r →
      k + n + 1 ≤ M →
      retryGo attempts M (M - k) k tr = .success r (tr ++ trSeg k n) := by
  intro n
  induction n with
  | zero =>
    intro k tr _ hok hM
    have hrem : M - k = (M - k - 1) + 1 := by omega
    rw [hrem, retryGo]
    simp only [Nat.add_zero] at hok
    rw [hok]
    simp [trSeg]
  | succ m ih =>
    intro k tr hfail hok hM
    have hrem : M - k = (M - k - 1) + 1 := by omega
    rw [hrem, retryGo]
    have h0 : attempts k = .err (e k) := by
      have := hfail 0 (Nat.succ_pos m)
      simpa using this
    rw [h0]
    dsimp only
    have hne : ¬ (k = M - 1) := by omega
    rw [if_neg hne]
    have hrem2 : M - k - 1 = M - (k + 1) := by omega
    rw [hrem2]
    have hfail2 : ∀ j, j < m → attempts (k + 1 + j) = .err (e (k + 1 + j)) := by
      intro j hj
      have := hfail (j + 1) (by omega)
      have harith : k + (j + 1) = k + 1 + j := by omega
      rwa [harith] at this
    have hok2 : attempts (k + 1 + m) = .ok r := by
      have harith : k + 1 + m = k + (m + 1) := by omega
      rwa [harith]
    have := ih (k + 1) (tr ++ [.get k, .sleep (2 ^ k)]) hfail2 hok2 (by omega)
    rw [this, trSeg]
    simp

theorem retryGo_all_fail (attempts : Nat → Attempt ρ ε) (M : Nat) (e : Nat → ε) :
    ∀ (n k : Nat) (tr : List Event),
      k + n + 1 = M →
      (∀ j, j ≤ n → attempts (k + j) = .err (e (k + j))) →
      retryGo attempts M (M - k) k tr = .raised (e (k + n)) (tr ++ trSeg k n) := by
  intro n
  induction n with
  | zero =>
    intro k tr hM hfail
    have hrem : M - k = 1 := by omega
    rw [hrem, retryGo]
    have h0 : attempts k = .err (e k) := by simpa using hfail 0 (Nat.le_refl 0)
    rw [h0]
    dsimp only
    have heq : k = M - 1 := by omega
    rw [if_pos heq]
    simp [trSeg]
  | succ m ih =>
    intro k tr hM hfail
    have hrem : M - k = (M - k - 1) + 1 := by omega
    rw [hrem, retryGo]
    have h0 : attempts k = .err (e k) := by simpa using hfail 0 (Nat.zero_le _)
    rw [h0]
    dsimp only
    have hne : ¬ (k = M - 1) := by omega
    rw [if_neg hne]
    have hrem2 : M - k - 1 = M - (k + 1) := by omega
    rw [hrem2]
    have hfail2 : ∀ j, j ≤ m → attempts (k + 1 + j) = .err (e (k + 1 + j)) := by
      intro j hj
      have := hfail (j + 1) (by omega)
      have harith : k + (j + 1) = k + 1 + j := by omega
      rwa [harith] at this
    have := ih (k + 1) (tr ++ [.get k, .sleep (2 ^ k)]) (by omega) hfail2
    rw [this, trSeg]
    have harith : k + 1 + m = k + (m + 1) := by omega
    rw [harith]
    simp

theorem retryGo_ne_max (attempts : Nat → Attempt ρ ε) (M : Nat) :
    ∀ (remaining attempt : Nat) (tr : List Event),
      remaining + attempt = M → 1 ≤ remaining →
      isMaxExceeded (retryGo attempts M remaining attempt tr) = false := by
  intro remaining
  induction remaining with
  | zero => intro attempt tr _ h1; omega
  | succ m ih =>
    intro attempt tr hM _
    rw [retryGo]
    cases h : attempts attempt with
    | ok r => simp [isMaxExceeded]
    | err e =>
      dsimp only
      by_cases hlast : attempt = M - 1
      · rw [if_pos hlast]; simp [isMaxExceeded]
      · rw [if_neg hlast]
        have hm1 : 1 ≤ m := by omega
        exact ih (attempt + 1) (tr ++ [.get attempt, .sleep (2 ^ attempt)]) (by omega) hm1

/-- Concrete attempt oracle for the C1 witness: attempts 0 and 1 fail with
errors 0 and 1, attempt 2 succeeds with response `"resp"`. -/
def c1attempts : Nat → Attempt String Nat :=
  fun i => if i < 2 then .err i else .ok "resp"

/-- C1: for `N ≤ max_retries - 1` (i.e. `N + 1 ≤ max_retries`), if the first
`N` GET attempts fail and attempt `N + 1` (0-indexed `N`) succeeds,
`retry_request` returns the successful response with trace
`[get 0, sleep 2^0, get 1, sleep 2^1, ..., get N]`: exactly `N` backoff
sleeps of durations `2^0, ..., 2^(N-1)` in that order, and no event after
the successful GET. -/
theorem retry_request_success_trace (attempts : Nat → Attempt ρ ε)
    (e : Nat → ε) (r : ρ) (N max_retries : Nat)
    (hN : N + 1 ≤ max_retries)
    (hfail : ∀ j, j < N → attempts j = .err (e j))
    (hok : attempts N = .ok r) :
    retry_request attempts max_retries = .success r (trSeg 0 N) ∧
      sleepsOf (trSeg 0 N) = (List.range N).map (fun j => 2 ^ j) := by
  constructor
  · have := retryGo_success attempts max_retries e r N 0 []
      (by intro j hj; simpa using hfail j hj) (by simpa using hok) (by omega)
    rw [retry_request]
    rw [show max_retries = max_retries - 0 from rfl] at this ⊢
    simpa using this
  · rw [sleepsOf_trSeg]
    simp

/-- Witness for C1 at `N = 2`, `max_retries = 3`: two sleeps of 1 and 2
seconds, then the success response. -/
theorem retry_request_success_trace_witness :
    retry_request c1attempts 3 =
      RetryResult.success "resp" (trSeg 0 2) ∧
      sleepsOf (trSeg 0 2) = (List.range 2).map (fun j => 2 ^ j) :=
  retry_request_success_trace c1attempts (fun j => j) "resp" 2 3
    (by decide) (by decide) (by decide)

/-- Concrete attempt oracle for C2: every attempt `i` fails with error `i`. -/
def c2attempts : Nat → Attempt Unit Nat :=
  fun i => .err i

/-- C2 counterexample: with `max_retries = 2` and attempt `i` failing with
error `i`, the routine re-raises error `1` — the error of the LAST failed
attempt — not error `0` from the first failed attempt, refuting the claim
that the original (first) failure is re-raised. -/
theorem retry_request_last_error_counterexample :
    retry_request c2attempts 2 =
      RetryResult.raised 1 [Event.get 0, Event.sleep 1, Event.get 1] ∧
      (1 : Nat) ≠ 0 := by
  constructor
  · rfl
  · decide

/-- C2 amended: if all `max_retries ≥ 1` attempts fail, `retry_request`
re-raises the error of the LAST failed attempt (attempt `max_retries - 1`),
and no success value is returned (the result is `raised`, not `success`). -/
theorem retry_request_all_fail_raises_last (attempts : Nat → Attempt ρ ε)
    (e : Nat → ε) (max_retries : Nat)
    (hM : 1 ≤ max_retries)
    (hfail : ∀ j, j < max_retries → attempts j = .err (e j)) :
    retry_request attempts max_retries =
      .raised (e (max_retries - 1)) (trSeg 0 (max_retries - 1)) := by
  have := retryGo_all_fail attempts max_retries e (max_retries - 1) 0 []
    (by omega) (by intro j hj; simpa using hfail j (by omega))
  rw [retry_request]
  rw [show max_retries = max_retries - 0 from rfl]
  simpa using this

/-- Witness for the amended C2 at `max_retries = 2`. -/
theorem retry_request_all_fail_raises_last_witness :
    retry_request c2attempts 2 = RetryResult.raised 1 (trSeg 0 1) :=
  retry_request_all_fail_raises_last c2attempts (fun j => j) 2
    (by decide) (by intro j hj; rfl)

/-- Concrete attempt oracle for C10: every attempt fails. -/
def c10attempts : Nat → Attempt Unit Nat :=
  fun i => .err i

/-- C10: called with `max_retries = 0`, the loop body never runs: no HTTP
attempt is made (empty event trace) and the fall-through
`raise requests.RequestException("Max retries exceeded")` fires; for
`max_retries ≥ 1` that fall-through raise is unreachable (the result is
never `maxExceeded`). -/
theorem retry_request_zero_and_unreachable (attempts : Nat → Attempt ρ ε)
    (mr : Nat) (hmr : 1 ≤ mr) :
    retry_request attempts 0 =
      RetryResult.maxExceeded "Max retries exceeded" [] ∧
      isMaxExceeded (retry_request attempts mr) = false := by
  constructor
  · rfl
  · exact retryGo_ne_max attempts mr mr 0 [] (by omega) hmr

/-- Witness for C10 at `max_retries = 1`. -/
theorem retry_request_zero_and_unreachable_witness :
    retry_request c10attempts 0 =
      RetryResult.maxExceeded "Max retries exceeded" [] ∧
      isMaxExceeded (retry_request c10attempts 1) = false :=
  retry_request_zero_and_unreachable c10attempts 1 (by decide)

/-! ## detect_extension (src/any_potd.py lines 65-97)

`urlparse(url).path` is embedded following CPython 3.11 `urllib.parse`:
`urlsplit` lstrips WHATWG C0-control-or-space characters, removes every
tab/CR/LF, strips a well-formed scheme, strips a `//`-introduced netloc up
to the next `/`, `?` or `#`, then cuts the fragment (first `#`) and the
query (first `?`); `urlparse` additionally splits `;`-parameters off the
last path segment when the scheme is in `uses_params`.  `os.path.splitext`
is embedded per `posixpath`: the extension starts at the last dot of the
final path component, unless every character before that dot in the
component is itself a dot.  Case folding is ASCII (all recognized suffixes
and content types are ASCII). -/

/-- ASCII lowercase of a string (Python `.lower()` restricted to ASCII). -/
def strToLower (s : String) : String :=
  String.mk (s.data.map Char.toLower)

/-- ASCII letter test, matching `url[0].isascii() and url[0].isalpha()`. -/
def isAsciiAlpha (c : Char) : Bool :=
  (('a' ≤ c && c ≤ 'z') || ('A' ≤ c && c ≤ 'Z'))

/-- Characters allowed in a URL scheme (`scheme_chars` of `urllib.parse`). -/
def schemeChar (c : Char) : Bool :=
  isAsciiAlpha c || c.isDigit || c == '+' || c == '-' || c == '.'

/-- Splits a list at the first occurrence of `sep` (the separator removed),
or `none` when `sep` does not occur — Python `find` + slicing. -/
def splitFirst (sep : Char) : List Char → Option (List Char × List Char)
  | [] => none
  | c :: cs =>
    if c = sep then some ([], cs)
    else
      match splitFirst sep cs with
      | none => none
      | some (a, b) => some (c :: a, b)

/-- Schemes whose URLs carry `;`-parameters (`uses_params` without the
deprecated empty entry spelled out: the list is copied from CPython). -/
def uses_params : List String :=
  ["", "ftp", "hdl", "prospero", "http", "imap", "https", "shttp", "rtsp",
   "rtspu", "sip", "sips", "mms", "sftp", "tel"]

/-- `_splitparams` of `urllib.parse`, keeping only the path part: drops a
`;`-parameter section from the last path segment. Called only when the
path contains `;`. -/
def splitparamsPath (path : List Char) : List Char :=
  if path.contains '/' then
    let lastSegRev := path.reverse.takeWhile (fun c => c ≠ '/')
    let lastSeg := lastSegRev.reverse
    if lastSeg.contains ';' then
      path.take (path.length - lastSegRev.length) ++
        lastSeg.takeWhile (fun c => c ≠ ';')
    else path
  else path.takeWhile (fun c => c ≠ ';')

/-- The `path` component of `urlparse(url)` (CPython 3.11 semantics). -/
def urlparsePath (url : String) : String :=
  let cs0 := url.data.dropWhile (fun c => c.toNat ≤ 32)
  let cs := cs0.filter (fun c => !(c == '\t' || c == '\r' || c == '\n'))
  let schemeRest : List Char × List Char :=
    match splitFirst ':' cs with
    | none => ([], cs)
    | some (pre, post) =>
      match pre with
      | [] => ([], cs)
      | c0 :: _ =>
        if isAsciiAlpha c0 && pre.all schemeChar then
          (pre.map Char.toLower, post)
        else ([], cs)
  let scheme := schemeRest.1
  let rest := schemeRest.2
  let rest2 : List Char :=
    match rest with
    | '/' :: '/' :: tail =>
      tail.dropWhile (fun c => !(c == '/' || c == '?' || c == '#'))
    | _ => rest
  let rest3 := rest2.takeWhile (fun c => c ≠ '#')
  let path := rest3.takeWhile (fun c => c ≠ '?')
  let path2 :=
    if uses_params.contains (String.mk scheme) && path.contains ';' then
      splitparamsPath path
    else path
  String.mk path2

/-- The extension part of `os.path.splitext` (posixpath semantics). -/
def splitextExt (p : List Char) : List Char :=
  let name := (p.reverse.takeWhile (fun c => c ≠ '/')).reverse
  if name.contains '.' then
    let extNoDot := (name.reverse.takeWhile (fun c => c ≠ '.')).reverse
    let base := name.take (name.length - extNoDot.length - 1)
    if base.any (fun c => c ≠ '.') then '.' :: extNoDot else []
  else []

/-- The five recognized image suffixes (source lines 81 and 115). -/
def recognizedExts : List String :=
  [".jpg", ".jpeg", ".png", ".gif", ".webp"]

/-- `os.path.splitext(urlparse(url).path)[1].lower()` — the URL-derived
extension candidate of `detect_extension` (source lines 77-80). -/
def urlPathExt (url : String) : String :=
  strToLower (String.mk (splitextExt (urlparsePath url).data))

/-- The URL branch of `detect_extension` (source lines 76-82): the
extension found in the URL path when it is one of the recognized five. -/
def urlExtBranch (url : String) : Option String :=
  if (urlparsePath url).data.contains '.' then
    if recognizedExts.contains (urlPathExt url) then some (urlPathExt url)
    else none
  else none

/-- Substring containment on character lists (Python `in` on strings). -/
def listContainsSub (needle : List Char) : List Char → Bool
  | [] => needle.isEmpty
  | c :: t => needle.isPrefixOf (c :: t) || listContainsSub needle t

/-- The content-type branch of `detect_extension` (source lines 84-94). -/
def ctExtBranch (content_type : Option String) : Option String :=
  match content_type with
  | none => none
  | some ct =>
    if ct = "" then none
    else
      let ctl := (strToLower ct).data
      if listContainsSub "jpeg".data ctl || listContainsSub "jpg".data ctl then
        some ".jpg"
      else if listContainsSub "png".data ctl then some ".png"
      else if listContainsSub "gif".data ctl then some ".gif"
      else if listContainsSub "webp".data ctl then some ".webp"
      else none

/-- `detect_extension(url, content_type)` (source lines 65-97). -/
def detect_extension (url : String) (content_type : Option String) : String :=
  match urlExtBranch url with
  | some ext => ext
  | none =>
    match ctExtBranch content_type with
    | some ext => ext
    | none => ".jpg"

theorem splitextExt_contains_dot (p : List Char) (h : splitextExt p ≠ []) :
    p.contains '.' = true := by
  unfold splitextExt at h
  by_cases hn : ((p.reverse.takeWhile (fun c => c ≠ '/')).reverse).contains '.'
  · have hmem : '.' ∈ (p.reverse.takeWhile (fun c => c ≠ '/')).reverse := by
      simpa [List.contains, List.elem_iff] using hn
    rw [List.mem_reverse] at hmem
    have hp : '.' ∈ p.reverse := List.takeWhile_subset _ hmem
    rw [List.mem_reverse] at hp
    simpa [List.contains, List.elem_iff] using hp
  · simp only [hn] at h
    simp at h

theorem strToLower_mk_ne_empty (l : List Char)
    (h : strToLower (String.mk l) ≠ "") : l ≠ [] := by
  intro hl
  apply h
  rw [hl]
  rfl

theorem urlExtBranch_of_recognized (url : String)
    (h : recognizedExts.contains (urlPathExt url) = true) :
    urlExtBranch url = some (urlPathExt url) := by
  have hne : urlPathExt url ≠ "" := by
    intro he
    rw [he] at h
    simp [recognizedExts] at h
  have hext : splitextExt (urlparsePath url).data ≠ [] :=
    strToLower_mk_ne_empty _ hne
  have hdot : (urlparsePath url).data.contains '.' = true :=
    splitextExt_contains_dot _ hext
  unfold urlExtBranch
  rw [hdot, if_pos rfl, if_pos h]

theorem urlExtBranch_eq_none (url : String)
    (h : recognizedExts.contains (urlPathExt url) = false) :
    urlExtBranch url = none := by
  unfold urlExtBranch
  split
  · rw [h]
    simp
  · rfl

theorem urlExtBranch_recognized (url : String) (e : String)
    (h : urlExtBranch url = some e) :
    recognizedExts.contains e = true := by
  unfold urlExtBranch at h
  by_cases hdot : (urlparsePath url).data.contains '.' = true
  · rw [hdot, if_pos rfl] at h
    by_cases hrec : recognizedExts.contains (urlPathExt url) = true
    · rw [if_pos hrec] at h
      cases h
      exact hrec
    · rw [if_neg hrec] at h
      cases h
  · rw [if_neg hdot] at h
    cases h

theorem ctExtBranch_recognized (ct : Option String) (e : String)
    (h : ctExtBranch ct = some e) :
    recognizedExts.contains e = true := by
  unfold ctExtBranch at h
  cases ct with
  | none => cases h
  | some s =>
    dsimp only at h
    by_cases hs : s = ""
    · rw [if_pos hs] at h; cases h
    · rw [if_neg hs] at h
      split at h
      · cases h; decide
      · split at h
        · cases h; decide
        · split at h
          · cases h; decide
          · split at h
            · cases h; decide
            · cases h

/-- C3 counterexample: for the URL `http://a/.png`, the URL path `/.png`
ends in the recognized suffix `.png`, yet with content type `image/gif`
the detector returns `.gif` — `os.path.splitext` treats `.png` here as a
dotfile name with no extension, so URL-path detection does not fire.  This
refutes the claim that a URL path ending in a recognized suffix always
wins over the content type. -/
theorem detect_extension_hidden_file_counterexample :
    urlparsePath "http://a/.png" = "/.png" ∧
    List.isSuffixOf ".png".data (urlparsePath "http://a/.png").data = true ∧
    detect_extension "http://a/.png" (some "image/gif") = ".gif" ∧
    (".gif" : String) ≠ ".png" := by
  refine ⟨rfl, by decide, rfl, by decide⟩

/-- C3 amended: `detect_extension` always returns one of the five
recognized suffixes; and whenever `os.path.splitext` applied to the URL
path yields a recognized image suffix (compared case-insensitively), that
suffix — lowercased — is returned regardless of the content-type argument.
(The original claim's premise "the URL path ends in a recognized suffix"
is weakened to "splitext of the URL path yields a recognized suffix",
which excludes only dotfile-style final components such as `/.png`.) -/
theorem detect_extension_range_and_priority (url : String) (ct : Option String) :
    recognizedExts.contains (detect_extension url ct) = true ∧
    (recognizedExts.contains (urlPathExt url) = true →
      detect_extension url ct = urlPathExt url) := by
  constructor
  · unfold detect_extension
    cases hu : urlExtBranch url with
    | some e => exact urlExtBranch_recognized url e hu
    | none =>
      cases hc : ctExtBranch ct with
      | some e => exact ctExtBranch_recognized ct e hc
      | none => decide
  · intro h
    unfold detect_extension
    rw [urlExtBranch_of_recognized url h]

/-- Witness for C3 (amended) at `http://a/b.PNG` with content type
`image/gif`: the URL-derived suffix `.png` is recognized and wins. -/
theorem detect_extension_range_and_priority_witness :
    recognizedExts.contains (detect_extension "http://a/b.PNG" (some "image/gif")) = true ∧
    recognizedExts.contains (urlPathExt "http://a/b.PNG") = true ∧
    detect_extension "http://a/b.PNG" (some "image/gif") = urlPathExt "http://a/b.PNG" := by
  have h := detect_extension_range_and_priority "http://a/b.PNG" (some "image/gif")
  exact ⟨h.1, by decide, h.2 (by decide)⟩

/-! ## download_and_save (src/any_potd.py lines 100-129)

`pathlib.Path` is embedded at the level of the final path component:
`suffix` and `with_suffix` follow the pathlib source; the directory part
of the path is kept verbatim (pathlib would additionally collapse
duplicate separators, which no claim touches).  The function has no
`return` statement in the source, so its Python return value is `None`;
its observable effects (the fetched URL and headers, the corrected final
path, the written file and the printed success line) are returned as a
record. -/

/-- HTTP headers as an optional association list (`headers=None` is
`none`). -/
abbrev Headers := List (String × String)

/-- The final component of a path (`pathlib.PurePath.name`), ignoring
trailing separators as pathlib normalization does. -/
def pathName (p : String) : String :=
  let cs := p.data.reverse.dropWhile (fun c => c = '/')
  String.mk (cs.takeWhile (fun c => c ≠ '/')).reverse

/-- `pathlib.PurePath.suffix`: the extension of the final component; empty
when the last dot is at position 0 or at the very end of the name. -/
def pathSuffix (p : String) : String :=
  let name := (pathName p).data
  if name.contains '.' then
    let extNoDot := (name.reverse.takeWhile (fun c => c ≠ '.')).reverse
    let i := name.length - extNoDot.length - 1
    if 0 < i ∧ i < name.length - 1 then String.mk ('.' :: extNoDot) else ""
  else ""

/-- `pathlib.PurePath.with_suffix` for a valid suffix argument (every
suffix passed by the source is one of the recognized five): replaces or
appends the suffix on the final component. -/
def pathWithSuffix (p suffix : String) : String :=
  let cs := p.data.reverse.dropWhile (fun c => c = '/')
  let nameRev := cs.takeWhile (fun c => c ≠ '/')
  let dir := (cs.drop nameRev.length).reverse
  let name := nameRev.reverse
  let old := (pathSuffix p).data
  let newName :=
    if old.isEmpty then name ++ suffix.data
    else name.take (name.length - old.length) ++ suffix.data
  String.mk (dir ++ newName)

/-- The response consumed by `download_and_save`: the `Content-Type`
header (absent is `none`; `headers.get` then yields `""`) and the body
bytes. -/
structure HttpResponse where
  contentTypeHeader : Option String
  content : List Nat
deriving DecidableEq

/-- Observable behavior of one `download_and_save` call. -/
structure SaveEffects where
  fetchUrl : String
  fetchHeaders : Option Headers
  finalPath : String
  printed : List String
  writtenPath : String
  writtenBytes : List Nat
  retValue : Option String
deriving DecidableEq

/-- The suffix-correction step of `download_and_save` (source lines
114-119): replaces the target suffix when it is absent or not one of the
five recognized image suffixes. -/
def fixTarget (url target_path : String) (response : HttpResponse) : String :=
  if (pathSuffix target_path).isEmpty
      || !(recognizedExts.contains (strToLower (pathSuffix target_path))) then
    pathWithSuffix target_path
      (detect_extension url (some (response.contentTypeHeader.getD "")))
  else target_path

/-- `download_and_save(url, target_path, headers)` (source lines 100-129),
with the already-fetched response supplied explicitly.  The source
function ends at the `print` with no `return` statement, so `retValue`
is `none` (Python `None`). -/
def download_and_save (url target_path : String) (headers : Option Headers)
    (response : HttpResponse) : SaveEffects :=
  { fetchUrl := url
    fetchHeaders := headers
    finalPath := fixTarget url target_path response
    printed := ["Successfully downloaded to: " ++ fixTarget url target_path response]
    writtenPath := fixTarget url target_path response
    writtenBytes := response.content
    retValue := none }

/-- C6 counterexample: at a concrete successful call, `download_and_save`
returns `None` (no `return` statement in the source), not the final path,
refuting the claim that the final path is returned to the caller. -/
theorem download_and_save_no_return_counterexample :
    (download_and_save "http://e/x.jpg" "out.jpg" none
        { contentTypeHeader := some "image/jpeg", content := [1, 2] }).retValue = none ∧
    (download_and_save "http://e/x.jpg" "out.jpg" none
        { contentTypeHeader := some "image/jpeg", content := [1, 2] }).finalPath = "out.jpg" ∧
    (none : Option String) ≠ some "out.jpg" := by
  refine ⟨rfl, rfl, by decide⟩

/-- C6 amended: on success `download_and_save` prints exactly one success
line naming the final path used (after any suffix auto-correction), writes
the payload at that same path — but returns no value to its caller (the
Python function has no `return` statement, so the caller receives
`None`). -/
theorem download_and_save_prints_final_path (url target_path : String)
    (headers : Option Headers) (response : HttpResponse) :
    (download_and_save url target_path headers response).printed =
      ["Successfully downloaded to: "
        ++ (download_and_save url target_path headers response).finalPath] ∧
    (download_and_save url target_path headers response).writtenPath =
      (download_and_save url target_path headers response).finalPath ∧
    (download_and_save url target_path headers response).retValue = none :=
  ⟨rfl, rfl, rfl⟩

theorem detect_extension_png_of_no_url_ext (url : String)
    (h : recognizedExts.contains (urlPathExt url) = false) :
    detect_extension url (some "image/png") = ".png" := by
  unfold detect_extension
  rw [urlExtBranch_eq_none url h]
  rfl

/-- C7 counterexample: with image URL `http://example.com/a.jpg`, target
`photo` and fetched content type `image/png`, the final path is
`photo.jpg` — URL-derived detection wins over the content type — refuting
the claim that the final path ends in `.png` for every image URL. -/
theorem download_and_save_photo_png_counterexample :
    (download_and_save "http://example.com/a.jpg" "photo" none
        { contentTypeHeader := some "image/png", content := [] }).finalPath
      = "photo.jpg" ∧
    List.isSuffixOf ".png".data ("photo.jpg" : String).data = false := by
  refine ⟨rfl, by decide⟩

/-- C7 amended: for every image URL whose path yields no recognized
splitext suffix (so URL-derived detection does not fire), given target
path `photo` (no suffix) and a fetched content type of `image/png`, the
final written path is `photo.png` — in particular it ends in `.png`. -/
theorem download_and_save_photo_png_amended (url : String)
    (headers : Option Headers) (content : List Nat)
    (h : recognizedExts.contains (urlPathExt url) = false) :
    (download_and_save url "photo" headers
        { contentTypeHeader := some "image/png", content := content }).finalPath
      = "photo.png" ∧
    List.isSuffixOf ".png".data
      ((download_and_save url "photo" headers
          { contentTypeHeader := some "image/png", content := content }).finalPath).data
      = true := by
  have hfix : fixTarget url "photo"
      { contentTypeHeader := some "image/png", content := content } = "photo.png" := by
    unfold fixTarget
    rw [if_pos]
    · show pathWithSuffix "photo" (detect_extension url (some "image/png")) = "photo.png"
      rw [detect_extension_png_of_no_url_ext url h]
      rfl
    · decide
  constructor
  · show fixTarget url "photo" { contentTypeHeader := some "image/png", content := content } = "photo.png"
    exact hfix
  · show List.isSuffixOf ".png".data
      (fixTarget url "photo" { contentTypeHeader := some "image/png", content := content }).data = true
    rw [hfix]
    decide

/-- Witness for C7 (amended) at URL `http://example.com/photo` (no
extension in the URL path). -/
theorem download_and_save_photo_png_amended_witness :
    (download_and_save "http://example.com/photo" "photo" none
        { contentTypeHeader := some "image/png", content := [] }).finalPath
      = "photo.png" ∧
    List.isSuffixOf ".png".data
      ((download_and_save "http://example.com/photo" "photo" none
          { contentTypeHeader := some "image/png", content := [] }).finalPath).data
      = true :=
  download_and_save_photo_png_amended "http://example.com/photo" none [] (by decide)

/-! ## Provider adapters (src/any_potd.py lines 132-255)

Each adapter is embedded as a function of its parsed JSON response (a
record of `Option` fields: a missing or JSON-null field is `none`) that
either raises a `PyError` or issues exactly one save call.  The result
also records the metadata request (URL, headers, query parameters) the
adapter performs, so that header propagation to the save step can be
stated.  `datetime.now()` in the Wikipedia adapter is abstracted into
explicit year/month/day arguments. -/

/-- A raised Python exception: either `Exception(msg)` or a `KeyError`
from a `[...]` subscript on a missing key. -/
inductive PyError where
  | exception (msg : String)
  | keyError (key : String)
deriving DecidableEq

/-- An HTTP request as issued through `retry_request`. -/
structure Request where
  url : String
  headers : Option Headers
  params : Option (List (String × String))
deriving DecidableEq

/-- A call to `download_and_save`: the resolved image URL, the target path
and the headers passed along (`none` when the argument is omitted). -/
structure SaveCall where
  url : String
  target : String
  headers : Option Headers
deriving DecidableEq

/-- Outcome of one adapter run: an exception raised before the metadata
request, an exception raised after it, or a save call. -/
inductive AdapterResult where
  | failedBefore (e : PyError)
  | failedAfter (meta : Request) (e : PyError)
  | saved (meta : Request) (save : SaveCall)
deriving DecidableEq

/-- One entry of the Bing `images` array. -/
structure BingImage where
  urlbase : Option String
  title : Option String
  copyright : Option String
deriving DecidableEq

/-- The Bing archive JSON response: `images` is `none` when the key is
missing (both missing and `[]` are falsy in the source check). -/
structure BingData where
  images : Option (List BingImage)
deriving DecidableEq

/-- The fixed Bing metadata request (source line 136). -/
def bingMeta : Request :=
  { url := "https://www.bing.com/HPImageArchive.aspx?format=js&idx=0&n=1&mkt=en-US"
    headers := none
    params := none }

/-- `download_bing(target)` (source lines 132-150). `data['images'][0]
['urlbase']` raises `KeyError` when `urlbase` is missing. -/
def download_bing (target : String) (data : BingData) : AdapterResult :=
  match data.images with
  | none => .failedAfter bingMeta (.exception "No images found in Bing response")
  | some [] => .failedAfter bingMeta (.exception "No images found in Bing response")
  | some (img :: _) =>
    match img.urlbase with
    | none => .failedAfter bingMeta (.keyError "urlbase")
    | some urlbase =>
      .saved bingMeta
        { url := "https://www.bing.com" ++ urlbase ++ "_1920x1080.jpg"
          target := target
          headers := none }

/-- The NASA APOD JSON response. -/
structure NasaData where
  media_type : Option String
  hdurl : Option String
  url : Option String
  title : Option String
  date : Option String
deriving DecidableEq

/-- The NASA metadata request (source line 157). -/
def nasaMeta (api_key : String) : Request :=
  { url := "https://api.nasa.gov/planetary/apod?api_key=" ++ api_key
    headers := none
    params := none }

/-- Python str() of `data.get(..)` inside an f-string: `None` for a
missing field. -/
def pyNoneStr : Option String → String
  | none => "None"
  | some s => s

/-- `download_nasa(target, api_key)` (source lines 153-174). -/
def download_nasa (target api_key : String) (data : NasaData) : AdapterResult :=
  if data.media_type ≠ some "image" then
    .failedAfter (nasaMeta api_key)
      (.exception ("Today\x27s APOD is not an image, it\x27s a "
        ++ pyNoneStr data.media_type))
  else
    match nonEmptyOpt (pyOr data.hdurl data.url) with
    | some img_url =>
      .saved (nasaMeta api_key)
        { url := img_url, target := target, headers := none }
    | none =>
      .failedAfter (nasaMeta api_key)
        (.exception "No image URL found in NASA APOD response")

/-- The nested `image` object inside the Wikipedia POTD entry. -/
structure WikiInner where
  source : Option String
deriving DecidableEq

/-- The Wikipedia POTD entry (`data['image']`). -/
structure WikiImage where
  image : Option WikiInner
  title : Option String
deriving DecidableEq

/-- The Wikipedia featured-content JSON response. -/
structure WikiData where
  image : Option WikiImage
deriving DecidableEq

/-- Zero-padded two-digit rendering (`f"{n:02d}"` for `0 ≤ n ≤ 99`). -/
def pad2 (n : Nat) : String :=
  if n < 10 then "0" ++ toString n else toString n

/-- The User-Agent header sent by the Wikipedia adapter (source lines
188-190). -/
def wikipediaHeaders : Headers :=
  [("User-Agent",
    "any-photo-of-the-day/1.0 (https://github.com/yourusername/any-photo-of-the-day)")]

/-- The date-parameterized Wikipedia metadata request (source line 185). -/
def wikipediaMeta (y m d : Nat) : Request :=
  { url := "https://en.wikipedia.org/api/rest_v1/feed/featured/"
      ++ toString y ++ "/" ++ pad2 m ++ "/" ++ pad2 d
    headers := some wikipediaHeaders
    params := none }

/-- `download_wikipedia(target)` (source lines 177-215), with the current
date supplied as `y`/`m`/`d`. -/
def download_wikipedia (target : String) (y m d : Nat) (data : WikiData) :
    AdapterResult :=
  match data.image with
  | none =>
    .failedAfter (wikipediaMeta y m d)
      (.exception "No Picture of the Day found in Wikipedia response")
  | some potd =>
    match nonEmptyOpt (potd.image.bind (fun i => i.source)) with
    | some img_url =>
      .saved (wikipediaMeta y m d)
        { url := img_url, target := target, headers := some wikipediaHeaders }
    | none =>
      .failedAfter (wikipediaMeta y m d)
        (.exception "No image URL found in Wikipedia Picture of the Day")

/-- The `urls` object of the Unsplash response. -/
structure UnsplashUrls where
  full : Option String
  regular : Option String
deriving DecidableEq

/-- The Unsplash random-photo JSON response. -/
structure UnsplashData where
  urls : Option UnsplashUrls
  userName : Option String
deriving DecidableEq

/-- The query parameters built by the Unsplash adapter (source lines
227-235), in insertion order. -/
def unsplashParams (topic query : Option String) : List (String × String) :=
  [("orientation", "landscape")]
    ++ (if truthy topic then [("topics", topic.getD "")] else [])
    ++ (if truthy query then [("query", query.getD "")] else [])

/-- The Unsplash metadata request (source lines 226-242). -/
def unsplashMeta (api_key : String) (topic query : Option String) : Request :=
  { url := "https://api.unsplash.com/photos/random"
    headers := some [("Authorization", "Client-ID " ++ api_key)]
    params := some (unsplashParams topic query) }

/-- `download_unsplash(target, api_key, topic, query)` (source lines
218-255).  The `if not api_key: raise` guard fires before the HTTP
request; the save call passes no headers (source line 255). -/
def download_unsplash (target api_key : String) (topic query : Option String)
    (data : UnsplashData) : AdapterResult :=
  if api_key = "" then
    .failedBefore
      (.exception
        "Unsplash API key is required. Get one at https://unsplash.com/developers")
  else
    match nonEmptyOpt (pyOr (data.urls.bind (fun u => u.full))
        (data.urls.bind (fun u => u.regular))) with
    | some img_url =>
      .saved (unsplashMeta api_key topic query)
        { url := img_url, target := target, headers := none }
    | none =>
      .failedAfter (unsplashMeta api_key topic query)
        (.exception "No image URL found in Unsplash response")

theorem bing_url_ne_empty (u : String) :
    "https://www.bing.com" ++ u ++ "_1920x1080.jpg" ≠ "" := by
  intro h
  have h2 := congrArg String.length h
  rw [String.length_append, String.length_append] at h2
  rw [show ("https://www.bing.com" : String).length = 20 from rfl] at h2
  rw [show ("_1920x1080.jpg" : String).length = 14 from rfl] at h2
  rw [show ("" : String).length = 0 from rfl] at h2
  omega

/-- Whether an adapter run that reached the save step did so with a
non-empty image URL (vacuously true for failed runs). -/
def savedUrlNonEmpty : AdapterResult → Prop
  | .saved _ save => save.url ≠ ""
  | _ => True

/-- C4: every provider adapter either raises or issues exactly one save
call (the `saved` constructor holds a single `SaveCall`), and that save
call always carries a non-empty image URL — for every possible JSON
response and every argument. -/
theorem adapters_save_url_nonempty (tb tn tw tu nkey ukey : String)
    (y m d : Nat) (topic query : Option String)
    (bd : BingData) (nd : NasaData) (wd : WikiData) (ud : UnsplashData) :
    savedUrlNonEmpty (download_bing tb bd) ∧
    savedUrlNonEmpty (download_nasa tn nkey nd) ∧
    savedUrlNonEmpty (download_wikipedia tw y m d wd) ∧
    savedUrlNonEmpty (download_unsplash tu ukey topic query ud) := by
  refine ⟨?_, ?_, ?_, ?_⟩
  · unfold download_bing
    cases hbi : bd.images with
    | none => trivial
    | some l =>
      cases l with
      | nil => trivial
      | cons img tail =>
        dsimp only
        cases hub : img.urlbase with
        | none => trivial
        | some urlbase => exact bing_url_ne_empty urlbase
  · unfold download_nasa
    split
    · trivial
    · cases hm : nonEmptyOpt (pyOr nd.hdurl nd.url) with
      | none => simp [hm, savedUrlNonEmpty]
      | some s =>
        simp only [hm]
        exact nonEmptyOpt_ne _ s hm
  · unfold download_wikipedia
    cases hwi : wd.image with
    | none => trivial
    | some potd =>
      dsimp only
      cases hm : nonEmptyOpt (potd.image.bind (fun i => i.source)) with
      | none => simp [hm, savedUrlNonEmpty]
      | some s =>
        simp only [hm]
        exact nonEmptyOpt_ne _ s hm
  · unfold download_unsplash
    split
    · trivial
    · cases hm : nonEmptyOpt (pyOr (ud.urls.bind (fun u => u.full))
          (ud.urls.bind (fun u => u.regular))) with
      | none => simp [hm, savedUrlNonEmpty]
      | some s =>
        simp only [hm]
        exact nonEmptyOpt_ne _ s hm

/-- C5: (a) when `media_type` is anything other than `"image"` (including
`"video"` or a missing field), the NASA adapter raises an exception whose
message names the actual media type and issues no save call (the result is
`failedAfter`, not `saved`); (b) when `media_type` is `"image"`, `hdurl`
is absent and `url` is a non-empty string `u`, it saves using `u`. -/
theorem nasa_media_type_behavior (tgt key : String) (d1 d2 : NasaData)
    (u : String)
    (h1 : d1.media_type ≠ some "image")
    (h2 : d2.media_type = some "image") (h3 : d2.hdurl = none)
    (h4 : d2.url = some u) (h5 : u ≠ "") :
    download_nasa tgt key d1 =
      .failedAfter (nasaMeta key)
        (.exception ("Today\x27s APOD is not an image, it\x27s a "
          ++ pyNoneStr d1.media_type)) ∧
    download_nasa tgt key d2 =
      .saved (nasaMeta key) { url := u, target := tgt, headers := none } := by
  constructor
  · unfold download_nasa
    rw [if_pos h1]
  · unfold download_nasa
    rw [if_neg (by rw [h2]; simp)]
    rw [h3, h4]
    show (match nonEmptyOpt (pyOr none (some u)) with
      | some img_url =>
        AdapterResult.saved (nasaMeta key)
          { url := img_url, target := tgt, headers := none }
      | none =>
        AdapterResult.failedAfter (nasaMeta key)
          (.exception "No image URL found in NASA APOD response")) =
      AdapterResult.saved (nasaMeta key) { url := u, target := tgt, headers := none }
    rw [show pyOr none (some u) = some u from rfl]
    rw [show nonEmptyOpt (some u) = some u from by simp [nonEmptyOpt, h5]]

/-- Witness for C5: `media_type = "video"` raises naming `video`; an
image with only `url` saves using that URL. -/
theorem nasa_media_type_behavior_witness :
    download_nasa "t" "k"
        { media_type := some "video", hdurl := none, url := none,
          title := none, date := none } =
      .failedAfter (nasaMeta "k")
        (.exception ("Today\x27s APOD is not an image, it\x27s a "
          ++ pyNoneStr (some "video"))) ∧
    download_nasa "t" "k"
        { media_type := some "image", hdurl := none,
          url := some "https://apod.nasa.gov/x.jpg",
          title := none, date := none } =
      .saved (nasaMeta "k")
        { url := "https://apod.nasa.gov/x.jpg", target := "t", headers := none } :=
  nasa_media_type_behavior "t" "k"
    { media_type := some "video", hdurl := none, url := none,
      title := none, date := none }
    { media_type := some "image", hdurl := none,
      url := some "https://apod.nasa.gov/x.jpg",
      title := none, date := none }
    "https://apod.nasa.gov/x.jpg"
    (by decide) rfl rfl rfl (by decide)

/-- Whether a run that saved passed the same headers to the image download
as to its metadata fetch (vacuously true for failed runs). -/
def metaSaveHeadersAgree : AdapterResult → Prop
  | .saved meta save => meta.headers = save.headers
  | _ => True

/-- Whether a run that saved passed no headers to the image download
(vacuously true for failed runs). -/
def savedWithoutHeaders : AdapterResult → Prop
  | .saved _ save => save.headers = none
  | _ => True

/-- C9 counterexample: the Unsplash adapter fetches its metadata with an
`Authorization: Client-ID ...` header but calls the save step with no
headers at all, refuting the claim that every adapter downloads the image
bytes with the same headers as its metadata fetch. -/
theorem unsplash_headers_counterexample :
    download_unsplash "t" "KEY" none none
        { urls := some { full := some "https://images.unsplash.com/photo-1",
                         regular := none },
          userName := none } =
      AdapterResult.saved (unsplashMeta "KEY" none none)
        { url := "https://images.unsplash.com/photo-1", target := "t",
          headers := none } ∧
    (unsplashMeta "KEY" none none).headers =
      some [("Authorization", "Client-ID KEY")] ∧
    (some [("Authorization", "Client-ID KEY")] : Option Headers) ≠
      (none : Option Headers) := by
  refine ⟨rfl, rfl, by simp⟩

/-- C9 amended: the Bing and NASA adapters fetch both metadata and image
with no headers, and the Wikipedia adapter passes its metadata headers
(the User-Agent) to the image download — for those three the image fetch
uses the same headers as the metadata fetch; the Unsplash adapter,
however, sends its `Authorization` header only on the metadata fetch and
calls the save step with no headers. -/
theorem adapter_headers_behavior (tb tn tw tu nkey ukey : String)
    (y m d : Nat) (topic query : Option String)
    (bd : BingData) (nd : NasaData) (wd : WikiData) (ud : UnsplashData) :
    metaSaveHeadersAgree (download_bing tb bd) ∧
    metaSaveHeadersAgree (download_nasa tn nkey nd) ∧
    metaSaveHeadersAgree (download_wikipedia tw y m d wd) ∧
    savedWithoutHeaders (download_unsplash tu ukey topic query ud) := by
  refine ⟨?_, ?_, ?_, ?_⟩
  · unfold download_bing
    cases hbi : bd.images with
    | none => trivial
    | some l =>
      cases l with
      | nil => trivial
      | cons img tail =>
        dsimp only
        cases hub : img.urlbase with
        | none => trivial
        | some urlbase => exact rfl
  · unfold download_nasa
    split
    · trivial
    · cases hm : nonEmptyOpt (pyOr nd.hdurl nd.url) with
      | none => simp [hm, metaSaveHeadersAgree]
      | some s => simp [hm, metaSaveHeadersAgree, nasaMeta]
  · unfold download_wikipedia
    cases hwi : wd.image with
    | none => trivial
    | some potd =>
      dsimp only
      cases hm : nonEmptyOpt (potd.image.bind (fun i => i.source)) with
      | none => simp [hm, metaSaveHeadersAgree]
      | some s => simp [hm, metaSaveHeadersAgree, wikipediaMeta]
  · unfold download_unsplash
    split
    · trivial
    · cases hm : nonEmptyOpt (pyOr (ud.urls.bind (fun u => u.full))
          (ud.urls.bind (fun u => u.regular))) with
      | none => simp [hm, savedWithoutHeaders]
      | some s => simp [hm, savedWithoutHeaders]

/-! ## CLI dispatcher (src/any_potd.py lines 258-342)

`argparse` restricts `source` to the four provider names (`choices`), so
it is embedded as an enumeration; `--unsplash-api-key` has no default and
is `none` when the flag is absent.  The dispatch inside the `try` block is
embedded as a function from parsed arguments to the step taken: either an
adapter invocation (which is where the first network call would happen) or
an early `sys.exit` with the messages printed to stderr. -/

/-- The four values accepted for the positional `source` argument. -/
inductive Source where
  | bing
  | nasa
  | wikipedia
  | unsplash
deriving DecidableEq

/-- Parsed CLI arguments (source lines 281-319): `api_key` defaults to
`DEMO_KEY`, `unsplash_api_key` has no default. -/
structure Args where
  source : Source
  target : String
  api_key : String
  unsplash_api_key : Option String
  topic : Option String
  query : Option String
  verbose : Bool
deriving DecidableEq

/-- The step taken by `main` inside the `try` block: which adapter is
invoked with which arguments, or an early `sys.exit(code)` after printing
the given lines to stderr (no adapter invoked, hence no network call). -/
inductive CliStep where
  | runBing (target : String)
  | runNasa (target api_key : String)
  | runWikipedia (target : String)
  | runUnsplash (target api_key : String) (topic query : Option String)
  | exitEarly (code : Nat) (stderrLines : List String)
deriving DecidableEq

/-- The two stderr lines printed when the Unsplash key is missing
(source lines 333-334). -/
def missingUnsplashKeyLines : List String :=
  ["Error: --unsplash-api-key is required for Unsplash source",
   "Get a free API key at: https://unsplash.com/developers"]

/-- The dispatch of `main` (source lines 324-336): the source checks
`if not args.unsplash_api_key` before calling `download_unsplash`. -/
def mainDispatch (args : Args) : CliStep :=
  match args.source with
  | .bing => .runBing args.target
  | .nasa => .runNasa args.target args.api_key
  | .wikipedia => .runWikipedia args.target
  | .unsplash =>
    if truthy args.unsplash_api_key then
      .runUnsplash args.target (args.unsplash_api_key.getD "")
        args.topic args.query
    else
      .exitEarly 1 missingUnsplashKeyLines

/-- C8: with `source = unsplash` and no `--unsplash-api-key` flag, `main`
exits with code 1 after printing the missing-key message (and the hint
URL) to stderr; the step is `exitEarly`, not an adapter invocation, so no
network call is attempted. -/
theorem cli_unsplash_missing_key (args : Args)
    (h1 : args.source = Source.unsplash)
    (h2 : args.unsplash_api_key = none) :
    mainDispatch args = CliStep.exitEarly 1 missingUnsplashKeyLines := by
  unfold mainDispatch
  rw [h1]
  dsimp only
  rw [h2]
  rfl

/-- Witness for C8 at concrete arguments. -/
theorem cli_unsplash_missing_key_witness :
    mainDispatch
        { source := Source.unsplash, target := "out.jpg",
          api_key := "DEMO_KEY", unsplash_api_key := none,
          topic := none, query := none, verbose := false } =
      CliStep.exitEarly 1 missingUnsplashKeyLines :=
  cli_unsplash_missing_key
    { source := Source.unsplash, target := "out.jpg",
      api_key := "DEMO_KEY", unsplash_api_key := none,
      topic := none, query := none, verbose := false }
    rfl rfl
